import Mathlib

set_option autoImplicit false

universe u v w

/-- The quantifier sum type of src/src/lib.rs lines 1-7: a closed enum with
four variants in declaration order None, Some, Excluding, All; the middle two
carry one payload of the generic type T. Structural equality is the derived
PartialEq/Eq of line 1. -/
inductive Quantified (T : Type u) : Type u where
  | none : Quantified T
  | some (x : T) : Quantified T
  | excluding (x : T) : Quantified T
  | all : Quantified T
  deriving DecidableEq, Repr

namespace Quantified

/-- Quantified.map of lib.rs lines 27-34: a four-way match that applies f to
the payload of Some or Excluding and rebuilds the same variant, and passes
None and All through untouched. -/
def map {T : Type u} {U : Type v} (q : Quantified T) (f : T → U) : Quantified U :=
  match q with
  | .some x => .some (f x)
  | .excluding x => .excluding (f x)
  | .none => .none
  | .all => .all

/-- Quantified.as_ref of lib.rs lines 57-64: takes self by shared reference
and mirrors the variant, wrapping a shared borrow of the payload in place. A
shared borrow of an immutable value is modelled by the value it points at, so
the result type Quantified of a reference to T is modelled as Quantified T. -/
def as_ref {T : Type u} (q : Quantified T) : Quantified T :=
  match q with
  | .none => .none
  | .some x => .some x
  | .excluding x => .excluding x
  | .all => .all

/-- Quantified.as_mut of lib.rs lines 79-86: takes self by exclusive
reference and mirrors the variant, wrapping an exclusive borrow of the
payload slot. A mutable borrow is modelled by the value it points at; the
write-back behaviour of mutating through it is modelled separately by
mutateViaAsMut below. -/
def as_mut {T : Type u} (q : Quantified T) : Quantified T :=
  match q with
  | .none => .none
  | .some ts => .some ts
  | .excluding ts => .excluding ts
  | .all => .all

/-- Quantified.as_deref of lib.rs lines 105-107, literally
self.as_ref().map(deref). The Deref coercion of the payload type is modelled
by an explicit view function d from T to the target type V. -/
def as_deref {T : Type u} {V : Type v} (q : Quantified T) (d : T → V) : Quantified V :=
  (q.as_ref).map d

/-- Quantified.as_deref_mut of lib.rs lines 126-128, literally
self.as_mut().map(deref_mut). The DerefMut coercion is modelled by an
explicit view function dm from T to the target type V. -/
def as_deref_mut {T : Type u} {V : Type v} (q : Quantified T) (dm : T → V) : Quantified V :=
  (q.as_mut).map dm

/-- The discriminant of a variant, numbered in declaration order as the
derived Ord of lib.rs line 1 orders the tags: None, Some, Excluding, All. -/
def discr {T : Type u} : Quantified T → Nat
  | .none => 0
  | .some _ => 1
  | .excluding _ => 2
  | .all => 3

/-- The payload carried by a Some or Excluding value, if any. -/
def payload {T : Type u} : Quantified T → Option T
  | .some x => Option.some x
  | .excluding x => Option.some x
  | .none => Option.none
  | .all => Option.none

/-- The derived Ord of lib.rs line 1: two values of distinct variants compare
by discriminant in declaration order; two values of the same payload-bearing
variant compare by the comparator c of the payload type. -/
def cmp {T : Type u} (c : T → T → Ordering) : Quantified T → Quantified T → Ordering
  | .some a, .some b => c a b
  | .excluding a, .excluding b => c a b
  | x, y => compare x.discr y.discr

/-- The derived PartialEq of lib.rs line 1: equal when the variants match and,
for the payload-bearing variants, the payloads are equal under the equality
test e of the payload type. -/
def beq {T : Type u} (e : T → T → Bool) : Quantified T → Quantified T → Bool
  | .none, .none => true
  | .some a, .some b => e a b
  | .excluding a, .excluding b => e a b
  | .all, .all => true
  | _, _ => false

/-- The body of map (lib.rs lines 28-33) instrumented with a call counter, by
state passing: the counter is bumped exactly at the two points where the
source text applies the argument f, and is untouched elsewhere. -/
def mapCount {T : Type u} {U : Type v} (q : Quantified T) (f : T → U) :
    Nat → Quantified U × Nat :=
  fun n =>
    match q with
    | .some x => (.some (f x), n + 1)
    | .excluding x => (.excluding (f x), n + 1)
    | .none => (.none, n)
    | .all => (.all, n)

/-- How many times q.map f invokes f, read off the instrumented mapCount run
from a zero counter. -/
def callCount {T : Type u} {U : Type v} (q : Quantified T) (f : T → U) : Nat :=
  (mapCount q f 0).2

/-- The body of map (lib.rs lines 28-33) with the caller-supplied f allowed
to fail, translated into Except: where the source writes Some(f(x)) or
Excluding(f(x)), first evaluate f x, propagate an error unchanged, and
otherwise rebuild the variant around the result; the None and All arms never
consult f and so always succeed. -/
def mapE {T : Type u} {U : Type v} {E : Type w} (q : Quantified T)
    (f : T → Except E U) : Except E (Quantified U) :=
  match q with
  | .some x =>
    match f x with
    | .ok y => .ok (.some y)
    | .error e => .error e
  | .excluding x =>
    match f x with
    | .ok y => .ok (.excluding y)
    | .error e => .error e
  | .none => .ok .none
  | .all => .ok .all

/-- The two-statement program taking q.as_ref() and then mapping f over the
temporary, as in the doc example of lib.rs lines 49-56. as_ref borrows q by
shared reference (line 57 takes self by reference, not by value), so the
storage of q is neither moved nor written; map consumes only the temporary.
The returned pair is (result of the call, value of q after the call). -/
def asRefMapProgram {T : Type u} {U : Type v} (q : Quantified T) (f : T → U) :
    Quantified U × Quantified T :=
  ((q.as_ref).map f, q)

/-- In-place mutation through the exclusive borrow returned by as_mut
(lib.rs lines 79-86): the borrow points at the payload slot of q itself, so
applying an in-place update g through it leaves q holding g of its old
payload under the unchanged tag. With a mutable borrow modelled by the value
it points at, the post-mutation value of q is the result of mapping g over
q.as_mut. -/
def mutateViaAsMut {T : Type u} (q : Quantified T) (g : T → T) : Quantified T :=
  (q.as_mut).map g

/-- In-place mutation through the borrow returned by as_deref_mut
(lib.rs lines 126-128): that borrow is a mutable view of the payload reached
through DerefMut, modelled by the view function dm together with its
write-back upd; running the update gv through the view rewrites the contents
of the payload slot of q in place, tag untouched. -/
def mutateViaAsDerefMut {T : Type u} {V : Type v} (q : Quantified T)
    (dm : T → V) (upd : T → V → T) (gv : V → V) : Quantified T :=
  (q.as_mut).map (fun x => upd x (gv (dm x)))

/-- Spec-side definition for the refinement claim about as_deref: the
variant-by-variant description given in the spec (Some of an owned value to
Some of its view, Excluding likewise, None to None, All to All), written
directly from those words and independently of as_ref and map. -/
def asDerefSpec {T : Type u} {V : Type v} (q : Quantified T) (d : T → V) :
    Quantified V :=
  match q with
  | .some x => .some (d x)
  | .excluding x => .excluding (d x)
  | .none => .none
  | .all => .all

end Quantified

/-- Claim C1: map sends Some x to Some (f x), Excluding x to Excluding (f x),
None to None and All to All, for every payload x and every function f. -/
theorem c1_map_on_each_variant {T : Type u} {U : Type v} (x : T) (f : T → U) :
    (Quantified.some x).map f = Quantified.some (f x) ∧
    (Quantified.excluding x).map f = Quantified.excluding (f x) ∧
    (Quantified.none : Quantified T).map f = Quantified.none ∧
    (Quantified.all : Quantified T).map f = Quantified.all :=
  ⟨rfl, rfl, rfl, rfl⟩

/-- Claim C2: as_ref mirrors the variant tag of q, and its payload is exactly
the payload of q; a shared borrow is modelled by the value it points at, so
pointing at the original storage rather than a copy appears here as equality
of the payloads. -/
theorem c2_as_ref_mirrors_tag_and_payload {T : Type u} (q : Quantified T) :
    (q.as_ref).discr = q.discr ∧ (q.as_ref).payload = q.payload := by
  cases q <;> exact ⟨rfl, rfl⟩

/-- Claim C3: the derived order compares tags first, in the order
None < Some < Excluding < All regardless of the payloads, two values of the
same payload-bearing tag compare by the payload comparator, and the derived
equality is structural: same tag, and equal payloads when present. -/
theorem c3_derived_order_and_equality {T : Type u} (c : T → T → Ordering)
    (e : T → T → Bool) (x y : T) :
    Quantified.cmp c Quantified.none (Quantified.some x) = Ordering.lt ∧
    Quantified.cmp c Quantified.none (Quantified.excluding y) = Ordering.lt ∧
    Quantified.cmp c (Quantified.none : Quantified T) Quantified.all = Ordering.lt ∧
    Quantified.cmp c (Quantified.some x) (Quantified.excluding y) = Ordering.lt ∧
    Quantified.cmp c (Quantified.some x) Quantified.all = Ordering.lt ∧
    Quantified.cmp c (Quantified.excluding x) Quantified.all = Ordering.lt ∧
    Quantified.cmp c (Quantified.some x) (Quantified.some y) = c x y ∧
    Quantified.cmp c (Quantified.excluding x) (Quantified.excluding y) = c x y ∧
    Quantified.beq e (Quantified.some x) (Quantified.some y) = e x y ∧
    Quantified.beq e (Quantified.excluding x) (Quantified.excluding y) = e x y ∧
    Quantified.beq e (Quantified.none : Quantified T) Quantified.none = true ∧
    Quantified.beq e (Quantified.all : Quantified T) Quantified.all = true ∧
    Quantified.beq e Quantified.none (Quantified.some x) = false ∧
    Quantified.beq e Quantified.none (Quantified.excluding x) = false ∧
    Quantified.beq e (Quantified.none : Quantified T) Quantified.all = false ∧
    Quantified.beq e (Quantified.some x) (Quantified.excluding y) = false ∧
    Quantified.beq e (Quantified.some x) Quantified.all = false ∧
    Quantified.beq e (Quantified.excluding x) Quantified.all = false := by
  refine ⟨rfl, rfl, rfl, rfl, rfl, rfl, rfl, rfl, rfl, rfl, rfl, rfl, rfl,
    rfl, rfl, rfl, rfl, rfl⟩

/-- Claim C4: as_deref is exactly as_ref followed by map with the deref view,
it agrees with the spec-side variant-by-variant description, and on each
variant it gives Some (view), Excluding (view), None and All respectively. -/
theorem c4_as_deref_is_as_ref_then_map {T : Type u} {V : Type v}
    (q : Quantified T) (d : T → V) (x : T) :
    q.as_deref d = (q.as_ref).map d ∧
    q.as_deref d = q.asDerefSpec d ∧
    (Quantified.some x).as_deref d = Quantified.some (d x) ∧
    (Quantified.excluding x).as_deref d = Quantified.excluding (d x) ∧
    (Quantified.none : Quantified T).as_deref d = Quantified.none ∧
    (Quantified.all : Quantified T).as_deref d = Quantified.all := by
  refine ⟨rfl, ?_, rfl, rfl, rfl, rfl⟩
  cases q <;> rfl

/-- Claim C5: in a call of q.map f, the instrumented body invokes f exactly
once when q is Some or Excluding, never when q is None or All, hence at most
once overall, and the instrumentation does not change the result of map. -/
theorem c5_map_invokes_f_at_most_once {T : Type u} {U : Type v}
    (q : Quantified T) (f : T → U) (x : T) :
    Quantified.callCount q f ≤ 1 ∧
    Quantified.callCount (Quantified.some x) f = 1 ∧
    Quantified.callCount (Quantified.excluding x) f = 1 ∧
    Quantified.callCount (Quantified.none : Quantified T) f = 0 ∧
    Quantified.callCount (Quantified.all : Quantified T) f = 0 ∧
    (Quantified.mapCount q f 0).1 = q.map f := by
  cases q <;> refine ⟨?_, rfl, rfl, rfl, rfl, rfl⟩ <;>
    first
      | exact Nat.le_refl 1
      | exact Nat.zero_le 1

/-- Claim C6: running q.as_ref() and mapping f over the temporary leaves q
exactly as it was before the call, and produces the expected result. -/
theorem c6_as_ref_map_leaves_q_unchanged {T : Type u} {U : Type v}
    (q : Quantified T) (f : T → U) :
    (Quantified.asRefMapProgram q f).2 = q ∧
    (Quantified.asRefMapProgram q f).1 = (q.as_ref).map f :=
  ⟨rfl, rfl⟩

/-- Claim C7: mutating the payload in place through the borrow of as_mut, or
through the deref view of as_deref_mut, never changes the variant tag; the
as_mut mutation changes exactly the payload contents, by g. -/
theorem c7_payload_mutation_preserves_tag {T : Type u} {V : Type v}
    (q : Quantified T) (g : T → T) (dm : T → V) (upd : T → V → T) (gv : V → V) :
    (Quantified.mutateViaAsMut q g).discr = q.discr ∧
    (Quantified.mutateViaAsDerefMut q dm upd gv).discr = q.discr ∧
    (Quantified.mutateViaAsMut q g).payload = q.payload.map g := by
  cases q <;> exact ⟨rfl, rfl, rfl⟩

/-- Claim C8: with the caller-supplied f returning a result-or-error, map on
a payload variant fails exactly as f does, the error value passing through
unmodified; on None and All it always succeeds; and when f always succeeds
the whole call succeeds with the plain map result, so map adds no failure of
its own. -/
theorem c8_map_propagates_only_f_failures {T : Type u} {U : Type v} {E : Type w}
    (q : Quantified T) (f : T → Except E U) (g : T → U) (x : T) (e : E) :
    Quantified.mapE (Quantified.some x) f = Except.map Quantified.some (f x) ∧
    Quantified.mapE (Quantified.excluding x) f = Except.map Quantified.excluding (f x) ∧
    Quantified.mapE (Quantified.none : Quantified T) f = Except.ok Quantified.none ∧
    Quantified.mapE (Quantified.all : Quantified T) f = Except.ok Quantified.all ∧
    Quantified.mapE (Quantified.some x) (fun _ => (Except.error e : Except E U)) =
      Except.error e ∧
    Quantified.mapE (Quantified.excluding x) (fun _ => (Except.error e : Except E U)) =
      Except.error e ∧
    Quantified.mapE q (fun y => (Except.ok (g y) : Except E U)) = Except.ok (q.map g) := by
  refine ⟨?_, ?_, rfl, rfl, rfl, rfl, ?_⟩
  · cases hfx : f x <;> simp [Quantified.mapE, hfx, Except.map]
  · cases hfx : f x <;> simp [Quantified.mapE, hfx, Except.map]
  · cases q <;> rfl

/-- Claim C9: the round trip q.as_ref().map(identity) has the same variant
tag as q, and carries a payload equal in value to the payload of q. -/
theorem c9_as_ref_map_identity_roundtrip {T : Type u} (q : Quantified T) :
    ((q.as_ref).map (fun t => t)).discr = q.discr ∧
    ((q.as_ref).map (fun t => t)).payload = q.payload := by
  cases q <;> exact ⟨rfl, rfl⟩

/-- Claim C10: map satisfies the functor laws: mapping the identity is the
identity, and mapping f then g is mapping the composition of g after f. -/
theorem c10_map_functor_laws {T : Type u} {U : Type v} {V : Type w}
    (q : Quantified T) (f : T → U) (g : U → V) :
    q.map (fun t => t) = q ∧ (q.map f).map g = q.map (fun t => g (f t)) := by
  cases q <;> exact ⟨rfl, rfl⟩
